import Mathlib

/-!
Verification development for the insta_hunter repository (Hunter_v7).

The Python sources are shallowly embedded into Lean:
pure functions become Lean functions; stateful code becomes explicit
state-passing functions; Python dictionaries become structures; Python
sets become `Finset`; Python floats are modelled by exact rationals
(`Rat`); fallible parsing returns `Option`.  External collaborators
(Selenium page contents, the TextBlob language detector, the NLTK
sentiment analyzer, wall-clock time) are abstract parameters, because
their results are not computed by the repository's own code.
-/

/-! ## Character and list helpers

These model the Python `str` primitives used by the sources:
lower-casing, substring membership (`needle in haystack`),
`str.split(sep)` for a single-character separator.  Only ASCII
lower-casing is modelled, which is exact for every string the
repository's keyword tables contain. -/

/-- ASCII lower-casing of one character, as Python `str.lower` acts on
the ASCII range. -/
def toLowerChar (c : Char) : Char :=
  if 'A' ≤ c ∧ c ≤ 'Z' then Char.ofNat (c.toNat + 32) else c

/-- Lower-case a character list. -/
def lowerList (cs : List Char) : List Char := cs.map toLowerChar

/-- Whether `pre` is a prefix of `l`, by direct comparison. -/
def startsWithList : List Char → List Char → Bool
  | [], _ => true
  | _ :: _, [] => false
  | a :: as, b :: bs => a = b && startsWithList as bs

/-- Python substring membership `needle in haystack`. -/
def containsSub (needle : List Char) : List Char → Bool
  | [] => startsWithList needle []
  | c :: t => startsWithList needle (c :: t) || containsSub needle t

/-- Python `s.split(sep)` for a single-character separator: always
returns at least one (possibly empty) piece. -/
def splitOnChar (sep : Char) : List Char → List (List Char)
  | [] => [[]]
  | c :: t =>
    let r := splitOnChar sep t
    if c = sep then [] :: r
    else
      match r with
      | h :: t' => (c :: h) :: t'
      | [] => [[c]]

/-! ## LocationValidator  (src/hunter_core.py, class LocationValidator)

`is_usa_location` works on the lower-cased concatenation
`f"{bio} {location_field}"` and tests each keyword by *substring*
membership, exactly as the source does. -/

/-- The `usa_keywords` list of `LocationValidator.__init__`, in source
order. -/
def usaKeywords : List String :=
  ["alabama", "al", "alaska", "ak", "arizona", "az", "arkansas", "ar",
   "california", "ca", "colorado", "co", "connecticut", "ct", "delaware", "de",
   "florida", "fl", "georgia", "ga", "hawaii", "hi", "idaho", "id",
   "illinois", "il", "indiana", "in", "iowa", "ia", "kansas", "ks",
   "kentucky", "ky", "louisiana", "la", "maine", "me", "maryland", "md",
   "massachusetts", "ma", "michigan", "mi", "minnesota", "mn", "mississippi", "ms",
   "missouri", "mo", "montana", "mt", "nebraska", "ne", "nevada", "nv",
   "new hampshire", "nh", "new jersey", "nj", "new mexico", "nm", "new york", "ny",
   "north carolina", "nc", "north dakota", "nd", "ohio", "oh", "oklahoma", "ok",
   "oregon", "or", "pennsylvania", "pa", "rhode island", "ri", "south carolina", "sc",
   "south dakota", "sd", "tennessee", "tn", "texas", "tx", "utah", "ut",
   "vermont", "vt", "virginia", "va", "washington", "wa", "west virginia", "wv",
   "wisconsin", "wi", "wyoming", "wy",
   "new york city", "nyc", "los angeles", "chicago", "houston", "phoenix",
   "philadelphia", "san antonio", "san diego", "dallas", "san jose", "austin",
   "jacksonville", "fort worth", "columbus", "charlotte", "san francisco",
   "indianapolis", "seattle", "denver", "washington dc", "boston", "nashville",
   "miami", "atlanta", "vegas", "las vegas", "detroit", "portland", "memphis",
   "usa", "united states", "america", "us", "american",
   "puerto rico", "pr", "guam", "virgin islands", "american samoa"]

/-- The `non_usa_indicators` list of `LocationValidator.__init__`. -/
def nonUsaIndicators : List String :=
  ["uk", "london", "england", "britain", "canada", "toronto", "vancouver",
   "australia", "sydney", "melbourne", "germany", "berlin", "france", "paris",
   "italy", "spain", "mexico", "brazil", "india", "mumbai", "delhi",
   "japan", "tokyo", "china", "beijing", "russia", "moscow"]

/-- The `ambiguous_cities` list inside `is_usa_location`. -/
def ambiguousCities : List String :=
  ["springfield", "madison", "franklin", "georgetown", "clinton"]

/-- Outcome tag of `is_usa_location`; each constructor corresponds to
one of the distinct reason strings the source returns (the
`usaConfirmed` message joins the first three matches, here the full
match list is carried). -/
inductive LocReason where
  | nonUsa (indicator : String)
  | usaConfirmed (found : List String)
  | ambiguousWith (city : String)
  | ambiguousWithout (city : String)
  | noIndicators
deriving DecidableEq

/-- `LocationValidator.is_usa_location(bio, location_field)`: explicit
non-USA indicators first, then USA keyword collection, then the
ambiguous-city fallback, all by substring membership on the
lower-cased combined text. -/
def isUsaLocation (bio location : String) : Bool × LocReason :=
  let combined := lowerList ((bio ++ " " ++ location).data)
  match nonUsaIndicators.find? (fun kw => containsSub kw.data combined) with
  | some kw => (false, .nonUsa kw)
  | none =>
    let usaMatches := usaKeywords.filter (fun kw => containsSub kw.data combined)
    if usaMatches ≠ [] then (true, .usaConfirmed usaMatches)
    else
      match ambiguousCities.find? (fun city => containsSub city.data combined) with
      | some city =>
        if usaKeywords.any (fun kw => containsSub kw.data combined) then
          (true, .ambiguousWith city)
        else (false, .ambiguousWithout city)
      | none => (false, .noIndicators)

/-- C4: the USA-location detector rejects a biography consisting of the
ambiguous city name "Springfield" alone with a no-USA-context reason,
and accepts "Springfield, Illinois".  The code violates the first
half: the substring keyword scan finds the state abbreviations "in",
"ri" and "pr" inside the word "springfield" and returns
USA-confirmed, so the ambiguous-city rejection branch is unreachable.
This theorem evaluates the embedded source at the failing input. -/
theorem C4_springfield_accepted_bug :
    isUsaLocation "Springfield" "" = (true, .usaConfirmed ["in", "ri", "pr"]) ∧
    (isUsaLocation "Springfield, Illinois" "").fst = true ∧
    ∀ city, (isUsaLocation "Springfield" "").snd ≠ LocReason.ambiguousWithout city := by
  refine ⟨by decide, by decide, ?_⟩
  intro city h
  rw [show (isUsaLocation "Springfield" "").snd = .usaConfirmed ["in", "ri", "pr"] from by decide] at h
  exact LocReason.noConfusion h

/-! ## BioAnalyzer  (src/hunter_core.py, class BioAnalyzer)

`detect_language` and `analyze_sentiment` call external libraries
(TextBlob, NLTK); they are abstract function parameters here.  The
keyword-based detectors are embedded concretely. -/

/-- The `commercial_keywords` list of `detect_commercial_intent`. -/
def commercialKeywords : List String :=
  ["link in bio", "linktree", "dm for collab", "business inquiries",
   "sponsored", "promo code", "discount", "shop now", "buy now",
   "affiliate", "partnership", "brand ambassador", "influencer",
   "onlyfans", "premium", "exclusive content", "subscribe"]

/-- `BioAnalyzer.detect_commercial_intent`: any commercial keyword is a
substring of the lower-cased bio. -/
def detectCommercialIntent (bio : String) : Bool :=
  commercialKeywords.any (fun kw => containsSub kw.data (lowerList bio.data))

/-- The `female_indicators` list of `estimate_gender`. -/
def femaleIndicators : List String :=
  ["she/her", "girl", "woman", "mom", "mother", "wife", "daughter",
   "sister", "queen", "goddess", "beauty", "makeup", "fashion"]

/-- The `male_indicators` list of `estimate_gender`. -/
def maleIndicators : List String :=
  ["he/him", "guy", "man", "dad", "father", "husband", "son",
   "brother", "king", "fitness", "gym", "sports"]

/-- `BioAnalyzer.estimate_gender`: competing keyword-substring scores,
ties resolved to "unknown". -/
def estimateGender (bio : String) : String :=
  let bioLower := lowerList bio.data
  let femaleScore := femaleIndicators.countP (fun kw => containsSub kw.data bioLower)
  let maleScore := maleIndicators.countP (fun kw => containsSub kw.data bioLower)
  if femaleScore > maleScore then "female"
  else if maleScore > femaleScore then "male"
  else "unknown"

/-- The `topic_keywords` table of `extract_topics`, in dict insertion
order. -/
def topicKeywords : List (String × List String) :=
  [("fitness", ["gym", "workout", "fitness", "health", "yoga", "trainer"]),
   ("fashion", ["fashion", "style", "outfit", "designer", "model"]),
   ("food", ["food", "cooking", "chef", "restaurant", "recipe"]),
   ("travel", ["travel", "adventure", "explore", "wanderlust", "vacation"]),
   ("tech", ["tech", "developer", "coding", "startup", "innovation"]),
   ("art", ["art", "artist", "creative", "design", "photography"]),
   ("music", ["music", "musician", "singer", "band", "concert"]),
   ("business", ["entrepreneur", "business", "ceo", "founder", "startup"])]

/-- `BioAnalyzer.extract_topics`: a topic is reported when any of its
keywords is a substring of the lower-cased bio. -/
def extractTopics (bio : String) : List String :=
  let bioLower := lowerList bio.data
  (topicKeywords.filter (fun p => p.2.any (fun kw => containsSub kw.data bioLower))).map (·.1)

/-- Python regex `\w` on the ASCII range: letters, digits, underscore. -/
def isWordChar (c : Char) : Bool := c.isAlphanum || c = '_'

/-- Word boundary before a position, given the preceding character (none
at the start of the text). -/
def boundaryBefore : Option Char → Bool
  | none => true
  | some p => !isWordChar p

/-- Word boundary after a position, given the remaining text. -/
def boundaryAfter : List Char → Bool
  | [] => true
  | c :: _ => !isWordChar c

/-- All matches of the regex pattern of two digits between word
boundaries, scanning left to right.  Step-one scanning agrees with
`re.findall`'s skip-past-match behaviour because a position inside a
match is always preceded by a digit (a word character), so it can
never start another match. -/
def twoDigitScan (prev : Option Char) : List Char → List String
  | c₁ :: c₂ :: rest =>
    (if boundaryBefore prev && c₁.isDigit && c₂.isDigit && boundaryAfter rest
     then [String.mk [c₁, c₂]] else []) ++ twoDigitScan (some c₁) (c₂ :: rest)
  | _ => []

/-- All matches of a case-insensitive literal followed by four digits
(the `born in (\d{4})` and `class of (\d{4})` patterns; `lit` is the
lower-cased literal).  Step-one scanning agrees with `re.findall`
here because the literal cannot restart inside a match region. -/
def litYearScan (lit : List Char) : List Char → List String
  | [] => []
  | c :: t =>
    let rest := (c :: t).drop lit.length
    (if startsWithList lit (lowerList (c :: t)) then
      match rest with
      | d₁ :: d₂ :: d₃ :: d₄ :: _ =>
        if d₁.isDigit && d₂.isDigit && d₃.isDigit && d₄.isDigit
        then [String.mk [d₁, d₂, d₃, d₄]] else []
      | _ => []
     else []) ++ litYearScan lit t

/-- `BioAnalyzer.detect_age_indicators`: the three patterns in source
order, matches concatenated. -/
def detectAgeIndicators (bio : String) : List String :=
  twoDigitScan none bio.data ++
  litYearScan "born in ".data bio.data ++
  litYearScan "class of ".data bio.data

/-- The record returned by `BioAnalyzer.analyze_bio`, with the fields of
the source dict. -/
structure BioAnalysis where
  language : String
  sentiment : String
  has_commercial_intent : Bool
  estimated_gender : String
  age_indicators : List String
  topics : List String
deriving DecidableEq

/-- The individual detectors `analyze_bio` dispatches to.  Keeping them
as a parameter record lets theorems quantify over the external ones
and state that none is invoked on an empty bio. -/
structure BioDetectors where
  detect_language : String → String
  analyze_sentiment : String → String
  detect_commercial_intent : String → Bool
  estimate_gender : String → String
  detect_age_indicators : String → List String
  extract_topics : String → List String

/-- `BioAnalyzer.analyze_bio`: an empty bio (falsy in Python) yields the
fixed default record; otherwise each detector is applied. -/
def analyzeBio (d : BioDetectors) (bio : String) : BioAnalysis :=
  if bio = "" then
    { language := "unknown", sentiment := "neutral",
      has_commercial_intent := false, estimated_gender := "unknown",
      age_indicators := [], topics := [] }
  else
    { language := d.detect_language bio,
      sentiment := d.analyze_sentiment bio,
      has_commercial_intent := detectCommercialIntent bio,
      estimated_gender := estimateGender bio,
      age_indicators := detectAgeIndicators bio,
      topics := extractTopics bio }

/-- The detector record of the real `BioAnalyzer`: the keyword detectors
are the concrete source functions, the language and sentiment
detectors (external libraries) stay abstract. -/
def concreteDetectors (dl ds : String → String) : BioDetectors :=
  { detect_language := dl, analyze_sentiment := ds,
    detect_commercial_intent := detectCommercialIntent,
    estimate_gender := estimateGender,
    detect_age_indicators := detectAgeIndicators,
    extract_topics := extractTopics }

/-! ## ProfileFilter  (src/hunter_core.py, class ProfileFilter) and the
orchestrator filter wrapper (src/main_orchestrator.py,
`HunterOrchestrator.apply_all_filters`). -/

/-- The profile-data dict built by `ScrapingEngine.get_profile_data`,
with the fields in source construction order.  Counts are Python
ints; the engagement rate (a Python float) is modelled as an exact
rational. -/
structure ProfileData where
  username : String
  profile_url : String
  follower_count : Int
  following_count : Int
  post_count : Int
  bio : String
  location : String
  is_verified : Bool
  is_private : Bool
  profile_pic_url : String
  has_active_story : Bool
  last_post_date : Option String
  engagement_rate : Rat
deriving DecidableEq

/-- The `user_filters` dict collected by
`HunterOrchestrator.interactive_configuration`. -/
structure UserFilters where
  min_followers : Int
  max_followers : Int
  min_posts : Int
  include_keywords : List String
  exclude_keywords : List String
  seed_hashtags : List String
  max_depth : Nat
  max_profiles : Nat
deriving DecidableEq

/-- The filtering parameters `ProfileFilter.__init__` loads from the
FILTERING config section; `exclude_keywords` is stored already
stripped and lower-cased, as the source comprehension produces it. -/
structure FilterConfig where
  min_engagement_rate : Rat
  max_engagement_rate : Rat
  prefer_female : Bool
  require_profile_pic : Bool
  exclude_keywords : List String
deriving DecidableEq

/-- Outcome tag of the qualification chain; each constructor
corresponds to one distinct reason-string family returned by
`ProfileFilter.should_target_profile` or
`HunterOrchestrator.apply_all_filters`. -/
inductive Reason where
  | followerRange
  | postCountBelowMin
  | verifiedAccount
  | privateProfile
  | locationFailed (r : LocReason)
  | noActiveStory
  | noProfilePic
  | commercialIntent
  | excludedKeyword (k : String)
  | engagementOutsideRange
  | allCriteriaMet
  | missingIncludeKeyword
  | excludedKeywordUser (k : String)
deriving DecidableEq

/-- `ProfileFilter.should_target_profile(profile_data, user_filters)`:
the ordered short-circuit chain of the source, returning the accept
flag and the reason tag.  `dl`/`ds` are the abstract language and
sentiment detectors passed through to `analyze_bio`. -/
def shouldTargetProfile (dl ds : String → String) (cfg : FilterConfig)
    (uf : UserFilters) (pd : ProfileData) : Bool × Reason :=
  if ¬ (uf.min_followers ≤ pd.follower_count ∧ pd.follower_count ≤ uf.max_followers) then
    (false, .followerRange)
  else if pd.post_count < uf.min_posts then (false, .postCountBelowMin)
  else if pd.is_verified then (false, .verifiedAccount)
  else if pd.is_private then (false, .privateProfile)
  else if (isUsaLocation pd.bio pd.location).fst = false then
    (false, .locationFailed (isUsaLocation pd.bio pd.location).snd)
  else if ¬ pd.has_active_story then (false, .noActiveStory)
  else if cfg.require_profile_pic ∧ pd.profile_pic_url = "" then (false, .noProfilePic)
  else if (analyzeBio (concreteDetectors dl ds) pd.bio).has_commercial_intent then
    (false, .commercialIntent)
  else
    match cfg.exclude_keywords.find? (fun k => containsSub k.data (lowerList pd.bio.data)) with
    | some k => (false, .excludedKeyword k)
    | none =>
      if 0 < pd.engagement_rate ∧
         ¬ (cfg.min_engagement_rate ≤ pd.engagement_rate ∧
            pd.engagement_rate ≤ cfg.max_engagement_rate) then
        (false, .engagementOutsideRange)
      else (true, .allCriteriaMet)

/-- `HunterOrchestrator.apply_all_filters`: the user-level
include-keyword and exclude-keyword checks run first, then the
`ProfileFilter` chain. -/
def applyAllFilters (dl ds : String → String) (cfg : FilterConfig)
    (uf : UserFilters) (pd : ProfileData) : Bool × Reason :=
  let bioLower := lowerList pd.bio.data
  if uf.include_keywords ≠ [] ∧
     ¬ (uf.include_keywords.any (fun k => containsSub (lowerList k.data) bioLower)) then
    (false, .missingIncludeKeyword)
  else
    match uf.exclude_keywords.find? (fun k => containsSub (lowerList k.data) bioLower) with
    | some k => (false, .excludedKeywordUser k)
    | none => shouldTargetProfile dl ds cfg uf pd

/-- C10: on an empty biography, `analyze_bio` returns the fixed default
record — language "unknown", sentiment "neutral", no commercial
intent, gender "unknown", empty age-indicator and topic lists — for
every choice of detector functions, i.e. without invoking any of
them. -/
theorem C10_analyze_bio_empty_default :
    ∀ d : BioDetectors,
      analyzeBio d "" =
        { language := "unknown", sentiment := "neutral",
          has_commercial_intent := false, estimated_gender := "unknown",
          age_indicators := [], topics := [] } := by
  intro d
  rfl

/-- C8: in the qualification chain, a candidate with a known engagement
rate (> 0) lying outside the configured band is rejected, while a
candidate with engagement rate 0 is never rejected with the
engagement reason — for all detector functions, configs and filters. -/
theorem C8_engagement_band :
    ∀ (dl ds : String → String) (cfg : FilterConfig) (uf : UserFilters) (pd : ProfileData),
      (0 < pd.engagement_rate →
        ¬ (cfg.min_engagement_rate ≤ pd.engagement_rate ∧
           pd.engagement_rate ≤ cfg.max_engagement_rate) →
        (shouldTargetProfile dl ds cfg uf pd).fst = false) ∧
      (pd.engagement_rate = 0 →
        (shouldTargetProfile dl ds cfg uf pd).snd ≠ Reason.engagementOutsideRange) := by
  intro dl ds cfg uf pd
  constructor
  · intro h1 h2
    unfold shouldTargetProfile
    repeat' split
    any_goals rfl
    rename_i h
    exact absurd ⟨h1, h2⟩ h
  · intro h0
    unfold shouldTargetProfile
    repeat' split
    all_goals intro hcontra
    all_goals try exact Reason.noConfusion hcontra
    rename_i h
    exact absurd (h0 ▸ h.1) (lt_irrefl 0)

/-- A fixed language detector used for concrete instantiations. -/
def dlEn : String → String := fun _ => "en"

/-- A fixed sentiment analyzer used for concrete instantiations. -/
def dsNeutral : String → String := fun _ => "neutral"

/-- The FILTERING parameters of the template config of
`ConfigManager.create_template_config`, after the comprehension in
`ProfileFilter.__init__` strips and lower-cases the exclude list. -/
def cfgDefault : FilterConfig :=
  { min_engagement_rate := 1/2, max_engagement_rate := 15,
    prefer_female := true, require_profile_pic := true,
    exclude_keywords := ["onlyfans", "escort", "sugar daddy", "cam girl",
                         "premium", "link in bio"] }

/-- The default interactive user filters of
`HunterOrchestrator.interactive_configuration`, with empty keyword
lists. -/
def ufBase : UserFilters :=
  { min_followers := 1000, max_followers := 50000, min_posts := 50,
    include_keywords := [], exclude_keywords := [],
    seed_hashtags := ["usamoms"], max_depth := 3, max_profiles := 1000 }

/-- A candidate record with engagement rate 20, outside the band. -/
def pdHighEngagement : ProfileData :=
  { username := "user1", profile_url := "u", follower_count := 5000,
    following_count := 100, post_count := 80, bio := "mom in texas",
    location := "", is_verified := false, is_private := false,
    profile_pic_url := "p", has_active_story := true,
    last_post_date := none, engagement_rate := 20 }

/-- A candidate record with unknown (zero) engagement rate. -/
def pdZeroEngagement : ProfileData :=
  { pdHighEngagement with username := "user2", engagement_rate := 0 }

/-- Witness for C8 at concrete inputs: rate 20 outside band 0.5–15 is
rejected; rate 0 never yields the engagement reason. -/
theorem C8_engagement_band_witness :
    (shouldTargetProfile dlEn dsNeutral cfgDefault ufBase pdHighEngagement).fst = false ∧
    (shouldTargetProfile dlEn dsNeutral cfgDefault ufBase pdZeroEngagement).snd ≠
      Reason.engagementOutsideRange :=
  ⟨(C8_engagement_band dlEn dsNeutral cfgDefault ufBase pdHighEngagement).1
      (by norm_num [pdHighEngagement])
      (by norm_num [cfgDefault, pdHighEngagement]),
   (C8_engagement_band dlEn dsNeutral cfgDefault ufBase pdZeroEngagement).2
      (by norm_num [pdZeroEngagement, pdHighEngagement])⟩

/-- C3 (amended): inside `should_target_profile`, the follower-range
predicate is evaluated first, so any record with follower count
outside the range is rejected with the follower-range reason
regardless of every other field; the full orchestrator chain
`apply_all_filters` gives the same result whenever the user keyword
lists are empty (its keyword checks run before the range check). -/
theorem C3_follower_range_precedence :
    ∀ (dl ds : String → String) (cfg : FilterConfig) (uf : UserFilters) (pd : ProfileData),
      ¬ (uf.min_followers ≤ pd.follower_count ∧ pd.follower_count ≤ uf.max_followers) →
      shouldTargetProfile dl ds cfg uf pd = (false, .followerRange) ∧
      (uf.include_keywords = [] → uf.exclude_keywords = [] →
        applyAllFilters dl ds cfg uf pd = (false, .followerRange)) := by
  intro dl ds cfg uf pd h
  have h1 : shouldTargetProfile dl ds cfg uf pd = (false, .followerRange) := by
    unfold shouldTargetProfile
    rw [if_pos h]
  refine ⟨h1, ?_⟩
  intro hi he
  unfold applyAllFilters
  rw [hi, he]
  simpa using h1

/-- Witness for C3 (amended) at a concrete out-of-range record with
empty user keyword lists. -/
theorem C3_follower_range_precedence_witness :
    shouldTargetProfile dlEn dsNeutral cfgDefault ufBase
        { pdHighEngagement with follower_count := 200000 } = (false, .followerRange) ∧
    applyAllFilters dlEn dsNeutral cfgDefault ufBase
        { pdHighEngagement with follower_count := 200000 } = (false, .followerRange) := by
  have h := C3_follower_range_precedence dlEn dsNeutral cfgDefault ufBase
    { pdHighEngagement with follower_count := 200000 } (by decide)
  exact ⟨h.1, h.2 rfl rfl⟩

/-- User filters whose exclude list contains "spam". -/
def ufSpam : UserFilters := { ufBase with exclude_keywords := ["spam"] }

/-- A record whose follower count 200000 is outside 1000–50000 and whose
bio contains the excluded keyword. -/
def pdSpam : ProfileData :=
  { username := "x", profile_url := "u", follower_count := 200000,
    following_count := 10, post_count := 100, bio := "spam", location := "",
    is_verified := false, is_private := false, profile_pic_url := "p",
    has_active_story := true, last_post_date := none, engagement_rate := 3 }

/-- Counterexample to C3 as stated: in the full qualification chain
(`apply_all_filters`), a record with followers 200000 outside the
range 1000–50000 whose bio holds a user-excluded keyword is rejected
with the keyword reason, not the follower-range reason, because the
keyword checks run before the `ProfileFilter` chain. -/
theorem C3_counterexample_keyword_preempts :
    applyAllFilters dlEn dsNeutral cfgDefault ufSpam pdSpam =
      (false, .excludedKeywordUser "spam") ∧
    ¬ (ufSpam.min_followers ≤ pdSpam.follower_count ∧
       pdSpam.follower_count ≤ ufSpam.max_followers) ∧
    Reason.excludedKeywordUser "spam" ≠ Reason.followerRange :=
  ⟨by decide, by decide, by decide⟩

/-! ## UserProfile and SessionManager  (src/hunter_v7.py dataclass
`UserProfile`; src/hunter_core.py, class SessionManager)

The persisted JSON file is modelled by `SavedSession`: JSON
round-trips the involved field types (strings, ints, bools, lists)
faithfully, so serialization itself is the identity on the record,
and the only conversion is the set/list change the source performs
on `seen_profiles`. -/

/-- The `UserProfile` dataclass, fields in source order.  The float
`engagement_rate` is modelled as an exact rational. -/
structure UserProfile where
  username : String
  follower_count : Int
  following_count : Int
  post_count : Int
  bio : String
  profile_url : String
  has_active_story : Bool
  location : String
  is_verified : Bool
  is_private : Bool
  profile_pic_url : String
  last_post_date : Option String
  engagement_rate : Rat
  estimated_gender : String
  bio_language : String
  account_age_estimate : String
  reason_for_selection : String
  source_hvt : String
  discovery_timestamp : String
deriving DecidableEq

/-- The in-memory `session_data` dict of `SessionManager`, keys in
creation order; `seen_profiles` is a Python set. -/
structure SessionData where
  seen_profiles : Finset String
  discovered_hvts : List UserProfile
  current_depth : Nat
  processing_queue : List String
  session_start : String
  total_profiles_scanned : Nat
  errors_encountered : Nat
deriving DecidableEq

/-- The persisted form of the session: `save_session` serializes
`seen_profiles` as a list, everything else verbatim. -/
structure SavedSession where
  seen_profiles : List String
  discovered_hvts : List UserProfile
  current_depth : Nat
  processing_queue : List String
  session_start : String
  total_profiles_scanned : Nat
  errors_encountered : Nat
deriving DecidableEq

/-- `SessionManager.save_session`: copies the session dict and converts
the `seen_profiles` set to a list for JSON.  Python's `list(set)`
enumerates in unspecified order; the enumeration is modelled by the
canonical sorted one (any enumeration is a permutation of it, and
loading is permutation-invariant, see `C5_session_roundtrip`). -/
def saveSession (s : SessionData) : SavedSession :=
  { seen_profiles := s.seen_profiles.sort (· ≤ ·),
    discovered_hvts := s.discovered_hvts,
    current_depth := s.current_depth,
    processing_queue := s.processing_queue,
    session_start := s.session_start,
    total_profiles_scanned := s.total_profiles_scanned,
    errors_encountered := s.errors_encountered }

/-- `SessionManager.load_session` on an existing file: parses the
record and converts the `seen_profiles` list back to a set; every
other field is passed through. -/
def loadSession (f : SavedSession) : SessionData :=
  { seen_profiles := f.seen_profiles.toFinset,
    discovered_hvts := f.discovered_hvts,
    current_depth := f.current_depth,
    processing_queue := f.processing_queue,
    session_start := f.session_start,
    total_profiles_scanned := f.total_profiles_scanned,
    errors_encountered := f.errors_encountered }

/-- `SessionManager.add_seen_profile`. -/
def addSeenProfile (s : SessionData) (username : String) : SessionData :=
  { s with seen_profiles := insert username s.seen_profiles }

/-- `SessionManager.is_profile_seen`. -/
def isProfileSeen (s : SessionData) (username : String) : Bool :=
  username ∈ s.seen_profiles

/-- `SessionManager.add_hvt`: unconditionally appends the profile dict
to `discovered_hvts`. -/
def addHvt (s : SessionData) (hvt : UserProfile) : SessionData :=
  { s with discovered_hvts := s.discovered_hvts ++ [hvt] }

/-- The fresh session dict `load_session` creates when no file exists
(the session-start timestamp is wall-clock and abstracted to ""). -/
def emptySession : SessionData :=
  { seen_profiles := ∅, discovered_hvts := [], current_depth := 0,
    processing_queue := [], session_start := "",
    total_profiles_scanned := 0, errors_encountered := 0 }

/-- C5: saving and reloading a session yields an equivalent state: the
round trip is the identity, loading is invariant under reordering of
the persisted examined list, and duplicates in it are collapsed; the
accepted-profile list is passed through unchanged (order and field
values preserved). -/
theorem C5_session_roundtrip :
    (∀ s : SessionData, loadSession (saveSession s) = s) ∧
    (∀ (f : SavedSession) (l : List String), l.Perm f.seen_profiles →
      loadSession { f with seen_profiles := l } = loadSession f) ∧
    (∀ f : SavedSession,
      loadSession { f with seen_profiles := f.seen_profiles.dedup } = loadSession f) ∧
    (∀ f : SavedSession, (loadSession f).discovered_hvts = f.discovered_hvts) := by
  refine ⟨?_, ?_, ?_, ?_⟩
  · intro s
    cases s
    simp [loadSession, saveSession, Finset.sort_toFinset]
  · intro f l hp
    cases f
    simp only [loadSession, SessionData.mk.injEq, and_true, true_and]
    exact List.toFinset_eq_of_perm _ _ hp
  · intro f
    cases f
    simp only [loadSession, SessionData.mk.injEq, and_true, true_and]
    exact List.toFinset.ext fun x => List.mem_dedup
  · intro f
    rfl

/-- A concrete profile record used in witnesses and counterexamples. -/
def sampleProfile : UserProfile :=
  { username := "alice", follower_count := 1500, following_count := 300,
    post_count := 60, bio := "mom in texas", profile_url := "u",
    has_active_story := true, location := "", is_verified := false,
    is_private := false, profile_pic_url := "p", last_post_date := none,
    engagement_rate := 3, estimated_gender := "female", bio_language := "en",
    account_age_estimate := "", reason_for_selection := "r",
    source_hvt := "initial_seed", discovery_timestamp := "t" }

/-- A concrete persisted session record. -/
def savedEx : SavedSession :=
  { seen_profiles := ["a", "b"], discovered_hvts := [sampleProfile],
    current_depth := 1, processing_queue := ["q"], session_start := "t0",
    total_profiles_scanned := 5, errors_encountered := 0 }

/-- Witness for C5 at concrete values, including a reordered examined
list. -/
theorem C5_session_roundtrip_witness :
    loadSession (saveSession (loadSession savedEx)) = loadSession savedEx ∧
    loadSession { savedEx with seen_profiles := ["b", "a"] } = loadSession savedEx :=
  ⟨C5_session_roundtrip.1 (loadSession savedEx),
   C5_session_roundtrip.2.1 savedEx ["b", "a"] (by decide)⟩

/-- Counterexample to C2 as stated: the accepted-profile store does not
treat re-acceptance as a no-op — `add_hvt` appends unconditionally,
so adding the same profile twice yields a duplicated list. -/
theorem C2_counterexample_addHvt_duplicates :
    (addHvt (addHvt emptySession sampleProfile) sampleProfile).discovered_hvts =
      [sampleProfile, sampleProfile] ∧
    addHvt (addHvt emptySession sampleProfile) sampleProfile ≠
      addHvt emptySession sampleProfile := by
  refine ⟨rfl, ?_⟩
  intro h
  exact absurd (congrArg (fun s => s.discovered_hvts.length) h) (by decide)

/-! ## ProxyManager  (src/hunter_v7.py, class ProxyManager)

`get_next_proxy` walks the raw proxy strings loaded from the pool
file and skips entries found in `failed_proxies`;
`mark_proxy_failed` inserts the *formatted* URL
(`proxy.get('http','')`) into that set.  An inner `none` models the
empty dict `format_proxy` returns for a malformed entry; an outer
`none` models Python `None` (pool exhausted). -/

/-- The dict `format_proxy` builds for a well-formed entry. -/
structure FmtProxy where
  http : String
  https : String
deriving DecidableEq

/-- `ProxyManager.format_proxy`: splits on ":", builds the URL with
optional credentials; a malformed entry yields the empty dict,
modelled as `none`. -/
def formatProxy (proxy : String) : Option FmtProxy :=
  let parts := splitOnChar ':' proxy.data
  if parts.length ≥ 2 then
    let ip := String.mk (parts.getD 0 [])
    let port := String.mk (parts.getD 1 [])
    let url :=
      if parts.length ≥ 4 then
        "http://" ++ String.mk (parts.getD 2 []) ++ ":" ++ String.mk (parts.getD 3 []) ++
          "@" ++ ip ++ ":" ++ port
      else "http://" ++ ip ++ ":" ++ port
    some { http := url, https := url }
  else none

/-- The mutable state of `ProxyManager`. -/
structure ProxyState where
  proxies : List String
  current_proxy_index : Nat
  failed_proxies : Finset String
deriving DecidableEq

/-- The while-loop of `get_next_proxy`; the fuel is the remaining
number of allowed attempts (`attempts < len(self.proxies)`). -/
def getNextProxyGo (fuel : Nat) (st : ProxyState) : ProxyState × Option (Option FmtProxy) :=
  match fuel with
  | 0 => (st, none)
  | f + 1 =>
    let proxy := st.proxies.getD st.current_proxy_index ""
    let st' := { st with current_proxy_index := (st.current_proxy_index + 1) % st.proxies.length }
    if proxy ∉ st'.failed_proxies then (st', some (formatProxy proxy))
    else getNextProxyGo f st'

/-- `ProxyManager.get_next_proxy`. -/
def getNextProxy (st : ProxyState) : ProxyState × Option (Option FmtProxy) :=
  if st.proxies = [] then (st, none)
  else getNextProxyGo st.proxies.length st

/-- `ProxyManager.mark_proxy_failed`: for a truthy dict, adds its
'http' URL to the failed set. -/
def markProxyFailed (st : ProxyState) (p : Option FmtProxy) : ProxyState :=
  match p with
  | none => st
  | some f => { st with failed_proxies := insert f.http st.failed_proxies }

/-- A pool holding one well-formed proxy entry. -/
def proxyPoolEx : ProxyState :=
  { proxies := ["1.2.3.4:8080"], current_proxy_index := 0, failed_proxies := ∅ }

/-- The formatted identity of that entry. -/
def fmtEx : FmtProxy := { http := "http://1.2.3.4:8080", https := "http://1.2.3.4:8080" }

/-- C7: once an identity is marked failed, `get_next_proxy` must never
return it again.  The code violates this: `mark_proxy_failed` stores
the formatted URL "http://1.2.3.4:8080" while the selection loop
compares the raw pool string "1.2.3.4:8080" against the failed set,
so the exclusion never fires and the very identity just marked
failed is returned again. -/
theorem C7_failed_proxy_reselected_bug :
    getNextProxy proxyPoolEx = (proxyPoolEx, some (some fmtEx)) ∧
    (markProxyFailed proxyPoolEx (some fmtEx)).failed_proxies = {"http://1.2.3.4:8080"} ∧
    getNextProxy (markProxyFailed proxyPoolEx (some fmtEx)) =
      ({ proxyPoolEx with failed_proxies := {"http://1.2.3.4:8080"} }, some (some fmtEx)) := by
  refine ⟨by decide, by decide, by decide⟩

/-! ## Count parsing  (src/scraper_engine.py, `ScrapingEngine.parse_count`)

`parse_count` strips commas and spaces, then branches on a K or M
suffix (any occurrence, as `in` does), parsing the remainder with
`float()` and truncating, or with `int()`.  A parsed decimal is
modelled exactly as a triple (negative?, mantissa, scale) denoting
±mantissa/10^scale; `int()` truncation toward zero on that value is
`truncScaled`.  (Python computes through binary doubles; the
embedding uses the exact decimal value, and for the claim's inputs
the truncated results coincide.  Exotic `float()`/`int()` forms such
as exponents, underscores or infinities are not modelled.) -/

/-- Characters surviving `replace(',','').replace(' ','')`. -/
def keepChar (c : Char) : Bool := !(c == ',') && !(c == ' ')

/-- Characters surviving `replace('K','')`. -/
def dropK (c : Char) : Bool := !(c == 'K')

/-- Characters surviving `replace('M','')`. -/
def dropM (c : Char) : Bool := !(c == 'M')

/-- Decimal value of a digit string (only used under an all-digits
guard). -/
def digitsVal (cs : List Char) : Nat :=
  cs.foldl (fun a c => 10 * a + (c.toNat - 48)) 0

/-- Parse a nonempty all-digit string. -/
def parseDigits? (cs : List Char) : Option Nat :=
  if cs ≠ [] ∧ cs.all Char.isDigit then some (digitsVal cs) else none

/-- Python `int()` on a cleaned string: optional sign, then digits. -/
def parsePyInt (cs : List Char) : Option Int :=
  if cs.head? = some '-' then (parseDigits? cs.tail).map (fun n => -(n : Int))
  else if cs.head? = some '+' then (parseDigits? cs.tail).map (fun n => (n : Int))
  else (parseDigits? cs).map (fun n => (n : Int))

/-- Unsigned decimal of `float()`: digits with an optional single dot,
at least one digit overall, returned as (mantissa, scale). -/
def parseFloatCore (cs : List Char) : Option (Nat × Nat) :=
  match splitOnChar '.' cs with
  | [ip] => (parseDigits? ip).map (fun n => (n, 0))
  | [ip, fp] =>
    if ip = [] ∧ fp = [] then none
    else if ip.all Char.isDigit ∧ fp.all Char.isDigit then
      some (digitsVal ip * 10 ^ fp.length + digitsVal fp, fp.length)
    else none
  | _ => none

/-- Python `float()` on a cleaned string: optional sign, then the
unsigned decimal. -/
def parsePyFloat (cs : List Char) : Option (Bool × Nat × Nat) :=
  if cs.head? = some '-' then (parseFloatCore cs.tail).map (fun p => (true, p.1, p.2))
  else if cs.head? = some '+' then (parseFloatCore cs.tail).map (fun p => (false, p.1, p.2))
  else (parseFloatCore cs).map (fun p => (false, p.1, p.2))

/-- `int(±(m/10^s) * mult)`: truncation toward zero of the exact
product, via floor division of the magnitude. -/
def truncScaled (neg : Bool) (m scale mult : Nat) : Int :=
  let mag : Nat := m * mult / 10 ^ scale
  if neg then -(mag : Int) else (mag : Int)

/-- The branch logic of `parse_count` on the cleaned character list. -/
def parseCountChars (cs : List Char) : Int :=
  if 'K' ∈ cs then
    match parsePyFloat (cs.filter dropK) with
    | some (neg, m, s) => truncScaled neg m s 1000
    | none => 0
  else if 'M' ∈ cs then
    match parsePyFloat (cs.filter dropM) with
    | some (neg, m, s) => truncScaled neg m s 1000000
    | none => 0
  else
    match parsePyInt cs with
    | some n => n
    | none => 0

/-- `ScrapingEngine.parse_count`. -/
def parseCount (s : String) : Int :=
  parseCountChars (s.data.filter keepChar)

/-- Decimal digit character for a digit value. -/
def digitCh (d : Nat) : Char :=
  match d with
  | 0 => '0' | 1 => '1' | 2 => '2' | 3 => '3' | 4 => '4'
  | 5 => '5' | 6 => '6' | 7 => '7' | 8 => '8' | _ => '9'

/-- Standard decimal rendering of a natural number. -/
def natDigits (n : Nat) : List Char :=
  if n < 10 then [digitCh n] else natDigits (n / 10) ++ [digitCh (n % 10)]
decreasing_by exact Nat.div_lt_self (by omega) (by omega)

theorem digitCh_isDigit (d : Nat) (h : d < 10) : (digitCh d).isDigit = true := by
  interval_cases d <;> decide

theorem digitCh_toNat (d : Nat) (h : d < 10) : (digitCh d).toNat - 48 = d := by
  interval_cases d <;> decide

theorem natDigits_ne_nil (n : Nat) : natDigits n ≠ [] := by
  rw [natDigits]
  split <;> simp

theorem natDigits_all_digit (n : Nat) : ∀ c ∈ natDigits n, c.isDigit = true := by
  induction n using Nat.strong_induction_on with
  | _ n ih =>
    rw [natDigits]
    split
    · next h =>
      intro c hc
      rw [List.mem_singleton] at hc
      subst hc
      exact digitCh_isDigit n h
    · next h =>
      intro c hc
      rcases List.mem_append.mp hc with h1 | h2
      · exact ih (n / 10) (Nat.div_lt_self (by omega) (by omega)) c h1
      · rw [List.mem_singleton] at h2
        subst h2
        exact digitCh_isDigit _ (Nat.mod_lt _ (by omega))

theorem digitsVal_append_single (xs : List Char) (c : Char) :
    digitsVal (xs ++ [c]) = 10 * digitsVal xs + (c.toNat - 48) := by
  simp [digitsVal, List.foldl_append]

theorem digitsVal_natDigits (n : Nat) : digitsVal (natDigits n) = n := by
  induction n using Nat.strong_induction_on with
  | _ n ih =>
    rw [natDigits]
    split
    · next h =>
      simp [digitsVal, digitCh_toNat n h]
    · next h =>
      rw [digitsVal_append_single, ih (n / 10) (Nat.div_lt_self (by omega) (by omega)),
        digitCh_toNat _ (Nat.mod_lt _ (by omega))]
      omega

/-- A digit character is none of the special characters `parse_count`
treats specially. -/
theorem isDigit_ne (c d : Char) (h : c.isDigit = true) (hd : d.isDigit = false) : c ≠ d :=
  fun he => by subst he; exact Bool.noConfusion (h.symm.trans hd)

theorem splitOnChar_eq_single (sep : Char) :
    ∀ cs : List Char, cs ≠ [] → (∀ c ∈ cs, c ≠ sep) → splitOnChar sep cs = [cs]
  | [], hne, _ => absurd rfl hne
  | [c], _, h => by
    simp [splitOnChar, h c (List.mem_cons_self c [])]
  | c :: c' :: t, _, h => by
    have hc : c ≠ sep := h c (List.mem_cons_self c (c' :: t))
    have ht : splitOnChar sep (c' :: t) = [c' :: t] :=
      splitOnChar_eq_single sep (c' :: t) (by simp)
        (fun x hx => h x (List.mem_cons_of_mem c hx))
    show (if c = sep then [] :: splitOnChar sep (c' :: t)
          else match splitOnChar sep (c' :: t) with
               | hh :: t' => (c :: hh) :: t'
               | [] => [[c]]) = [c :: c' :: t]
    rw [ht, if_neg hc]

theorem natDigits_filter_keep (n : Nat) : (natDigits n).filter keepChar = natDigits n :=
  List.filter_eq_self.mpr (fun a ha => by
    have hd := natDigits_all_digit n a ha
    simp only [keepChar, Bool.and_eq_true, Bool.not_eq_true', beq_eq_false_iff_ne, ne_eq]
    exact ⟨isDigit_ne a ',' hd (by decide), isDigit_ne a ' ' hd (by decide)⟩)

theorem natDigits_filter_dropK (n : Nat) : (natDigits n).filter dropK = natDigits n :=
  List.filter_eq_self.mpr (fun a ha => by
    have hd := natDigits_all_digit n a ha
    simp only [dropK, Bool.not_eq_true', beq_eq_false_iff_ne, ne_eq]
    exact isDigit_ne a 'K' hd (by decide))

theorem natDigits_filter_dropM (n : Nat) : (natDigits n).filter dropM = natDigits n :=
  List.filter_eq_self.mpr (fun a ha => by
    have hd := natDigits_all_digit n a ha
    simp only [dropM, Bool.not_eq_true', beq_eq_false_iff_ne, ne_eq]
    exact isDigit_ne a 'M' hd (by decide))

theorem K_not_mem_natDigits (n : Nat) : 'K' ∉ natDigits n :=
  fun hm => absurd (natDigits_all_digit n 'K' hm) (by decide)

theorem M_not_mem_natDigits (n : Nat) : 'M' ∉ natDigits n :=
  fun hm => absurd (natDigits_all_digit n 'M' hm) (by decide)

theorem natDigits_head_not (n : Nat) (d : Char) (hd : d.isDigit = false) :
    ¬ (natDigits n).head? = some d := by
  intro hh
  have hmem : d ∈ natDigits n := by
    cases hnd : natDigits n with
    | nil => rw [hnd] at hh; exact Option.noConfusion hh
    | cons a t =>
      rw [hnd] at hh
      simp only [List.head?_cons, Option.some.injEq] at hh
      rw [← hh]
      exact List.mem_cons_self a t
  exact absurd (natDigits_all_digit n d hmem) (by simp [hd])

theorem parseDigits_natDigits (n : Nat) : parseDigits? (natDigits n) = some n := by
  unfold parseDigits?
  rw [if_pos ⟨natDigits_ne_nil n, List.all_eq_true.mpr (fun c hc => natDigits_all_digit n c hc)⟩,
    digitsVal_natDigits]

theorem parsePyInt_natDigits (n : Nat) : parsePyInt (natDigits n) = some (n : Int) := by
  unfold parsePyInt
  rw [if_neg (natDigits_head_not n '-' (by decide)),
    if_neg (natDigits_head_not n '+' (by decide)), parseDigits_natDigits n]
  rfl

theorem parseFloatCore_natDigits (n : Nat) : parseFloatCore (natDigits n) = some (n, 0) := by
  have hsp := splitOnChar_eq_single '.' (natDigits n) (natDigits_ne_nil n)
    (fun c hc => isDigit_ne c '.' (natDigits_all_digit n c hc) (by decide))
  unfold parseFloatCore
  rw [hsp]
  show Option.map (fun n => (n, 0)) (parseDigits? (natDigits n)) = some (n, 0)
  rw [parseDigits_natDigits n]
  rfl

theorem parsePyFloat_natDigits (n : Nat) : parsePyFloat (natDigits n) = some (false, n, 0) := by
  unfold parsePyFloat
  rw [if_neg (natDigits_head_not n '-' (by decide)),
    if_neg (natDigits_head_not n '+' (by decide)), parseFloatCore_natDigits n]
  rfl

/-- C6: the count parser maps a K-suffixed count to its value times
1000, an M-suffixed count to its value times 1000000 (commas and
spaces removed first), a plain digit string to its integer value, and
an unparsable string to 0; in particular "12.3K" to 12300, "1.1M" to
1100000, "450" to 450 and "N/A" to 0.  The general clauses cover
every rendered natural number. -/
theorem C6_parse_count :
    parseCount "12.3K" = 12300 ∧ parseCount "1.1M" = 1100000 ∧
    parseCount "450" = 450 ∧ parseCount "N/A" = 0 ∧
    (∀ n : Nat, parseCount (String.mk (natDigits n ++ ['K'])) = 1000 * n) ∧
    (∀ n : Nat, parseCount (String.mk (natDigits n ++ ['M'])) = 1000000 * n) ∧
    (∀ n : Nat, parseCount (String.mk (natDigits n)) = n) := by
  refine ⟨by decide, by decide, by decide, by decide, ?_, ?_, ?_⟩
  · intro n
    have hall := natDigits_all_digit n
    show parseCountChars ((natDigits n ++ ['K']).filter keepChar) = 1000 * n
    have h1 : (natDigits n ++ ['K']).filter keepChar = natDigits n ++ ['K'] := by
      rw [List.filter_append, natDigits_filter_keep n]
      rfl
    rw [h1]
    unfold parseCountChars
    rw [if_pos (List.mem_append_right _ (List.mem_singleton_self 'K'))]
    have h2 : (natDigits n ++ ['K']).filter dropK = natDigits n := by
      rw [List.filter_append, natDigits_filter_dropK n,
        show (['K'] : List Char).filter dropK = [] from rfl, List.append_nil]
    rw [h2, parsePyFloat_natDigits n]
    show truncScaled false n 0 1000 = 1000 * n
    unfold truncScaled
    simp
    ring
  · intro n
    have hall := natDigits_all_digit n
    show parseCountChars ((natDigits n ++ ['M']).filter keepChar) = 1000000 * n
    have h1 : (natDigits n ++ ['M']).filter keepChar = natDigits n ++ ['M'] := by
      rw [List.filter_append, natDigits_filter_keep n]
      rfl
    rw [h1]
    unfold parseCountChars
    have hKnot : 'K' ∉ natDigits n ++ ['M'] := by
      intro hm
      rcases List.mem_append.mp hm with h | h
      · exact K_not_mem_natDigits n h
      · rw [List.mem_singleton] at h
        exact absurd h (by decide)
    rw [if_neg hKnot, if_pos (List.mem_append_right _ (List.mem_singleton_self 'M'))]
    have h2 : (natDigits n ++ ['M']).filter dropM = natDigits n := by
      rw [List.filter_append, natDigits_filter_dropM n,
        show (['M'] : List Char).filter dropM = [] from rfl, List.append_nil]
    rw [h2, parsePyFloat_natDigits n]
    show truncScaled false n 0 1000000 = 1000000 * n
    unfold truncScaled
    simp
    ring
  · intro n
    show parseCountChars ((natDigits n).filter keepChar) = n
    rw [natDigits_filter_keep n]
    unfold parseCountChars
    rw [if_neg (K_not_mem_natDigits n), if_neg (M_not_mem_natDigits n),
      parsePyInt_natDigits n]

/-! ## Follower collection  (src/scraper_engine.py,
`ScrapingEngine.get_followers`)

The DOM is abstracted by `pages`, the hrefs found by the dialog query
at each scroll iteration, and `err`, whether the iteration body
raises (the `except` clause breaks the loop).  The while-loop is
embedded with its remaining-attempts count as fuel: the source bound
`scroll_attempts < max_scroll_attempts` with
`max_scroll_attempts = limit // 12` corresponds to starting from fuel
`limit / 12`.  `list(followers)` is modelled by the canonical sorted
enumeration. -/

/-- The username extraction of the follower-collection body: keep hrefs
containing "instagram.com/", take the second-to-last slash piece for
a trailing slash and the last piece otherwise, and require it
nonempty. -/
def extractFollowerName (href : String) : Option String :=
  if containsSub "instagram.com/".data href.data then
    let parts := splitOnChar '/' href.data
    let piece :=
      if href.data.getLast? = some '/' then parts.getD (parts.length - 2) []
      else parts.getD (parts.length - 1) []
    if piece ≠ [] then some (String.mk piece) else none
  else none

/-- One iteration's inner for-loop: add every extracted username to the
accumulated set. -/
def collectFollowers (hrefs : List String) (acc : Finset String) : Finset String :=
  hrefs.foldl (fun fs h =>
    match extractFollowerName h with
    | some u => insert u fs
    | none => fs) acc

/-- The scroll loop of `get_followers`, returning the collected set and
the number of scroll attempts performed. -/
def getFollowersLoop (pages : Nat → List String) (err : Nat → Bool) (limit : Nat) :
    Nat → Finset String → Nat → Finset String × Nat
  | 0, fs, attempts => (fs, attempts)
  | fuel + 1, fs, attempts =>
    if fs.card < limit then
      if err attempts then (fs, attempts)
      else getFollowersLoop pages err limit fuel
        (collectFollowers (pages attempts) fs) (attempts + 1)
    else (fs, attempts)

/-- `ScrapingEngine.get_followers`: runs the scroll loop from an empty
set and returns `list(followers)[:limit]` together with the attempt
count. -/
def getFollowers (pages : Nat → List String) (err : Nat → Bool) (limit : Nat) :
    List String × Nat :=
  let r := getFollowersLoop pages err limit (limit / 12) ∅ 0
  ((r.fst.sort (· ≤ ·)).take limit, r.snd)

theorem getFollowersLoop_snd_le (pages : Nat → List String) (err : Nat → Bool) (limit : Nat) :
    ∀ (fuel : Nat) (fs : Finset String) (attempts : Nat),
      (getFollowersLoop pages err limit fuel fs attempts).snd ≤ attempts + fuel
  | 0, fs, attempts => Nat.le_refl _
  | fuel + 1, fs, attempts => by
    show (if fs.card < limit then
            if err attempts then (fs, attempts)
            else getFollowersLoop pages err limit fuel
              (collectFollowers (pages attempts) fs) (attempts + 1)
          else (fs, attempts)).snd ≤ attempts + (fuel + 1)
    split
    · split
      · omega
      · have h := getFollowersLoop_snd_le pages err limit fuel
          (collectFollowers (pages attempts) fs) (attempts + 1)
        omega
    · omega

/-- C9: for every limit and every page/error behaviour, the follower
collection performs at most `limit / 12` scroll iterations — hence at
most `ceil(limit / 12) + 1` — and returns at most `limit` unique
identifiers; the loop is total by construction. -/
theorem C9_get_followers_bounded :
    ∀ (pages : Nat → List String) (err : Nat → Bool) (limit : Nat),
      (getFollowers pages err limit).snd ≤ limit / 12 ∧
      limit / 12 ≤ (limit + 11) / 12 + 1 ∧
      (getFollowers pages err limit).fst.length ≤ limit := by
  intro pages err limit
  refine ⟨?_, ?_, ?_⟩
  · have h := getFollowersLoop_snd_le pages err limit (limit / 12) ∅ 0
    simpa [getFollowers] using h
  · have h : limit / 12 ≤ (limit + 11) / 12 := Nat.div_le_div_right (by omega)
    omega
  · simp only [getFollowers, List.length_take]
    exact Nat.min_le_left _ _

/-! ## Orchestrator  (src/main_orchestrator.py, class HunterOrchestrator;
src/utilities.py, class ProfileValidator)

`OrchState` combines the SessionManager fields mutated by the
orchestrator (`seen_profiles`, `discovered_hvts`) with the
orchestrator's own `self.stats` counters; `fetches` is a ghost
counter of `get_profile_data` calls, added so the no-fetch
properties can be stated.  The network is abstracted by `ScrapeEnv`
(the per-username fetch result, the follower list per source, and
the wall-clock timestamp).  The interrupt flag `should_stop` only
terminates the loops early and is modelled as always false. -/

/-- Abstract scraping environment. -/
structure ScrapeEnv where
  fetchProfile : String → Option ProfileData
  followers : String → List String
  timestamp : String

/-- The result dict of `ProfileValidator.validate_profile_data`. -/
structure ValidationResult where
  is_valid : Bool
  warnings : List String
  errors : List String
  quality_score : Int
deriving DecidableEq

/-- `ProfileValidator.validate_profile_data`: required-field falsiness
checks (username, follower count, post count, bio), range warnings,
and the quality score deductions, in source order. -/
def validateProfileData (pd : ProfileData) : ValidationResult :=
  let e1 : List String := if pd.username = "" then ["Missing required field: username"] else []
  let e2 : List String := if pd.follower_count = 0 then ["Missing required field: follower_count"] else []
  let e3 : List String := if pd.post_count = 0 then ["Missing required field: post_count"] else []
  let e4 : List String := if pd.bio = "" then ["Missing required field: bio"] else []
  let errors := e1 ++ e2 ++ e3 ++ e4
  let score1 : Int := 100 - 20 * errors.length
  let p1 : List String × Int :=
    if pd.follower_count = 0 then (["Zero follower count"], score1 - 10)
    else if pd.follower_count > 10000000 then
      (["Unusually high follower count (possible celebrity)"], score1 - 5)
    else ([], score1)
  let p2 : List String × Int :=
    if pd.engagement_rate > 20 then
      (["Very high engagement rate (possible bot activity)"], p1.2 - 15)
    else if pd.engagement_rate < 1 / 10 ∧ pd.follower_count > 1000 then
      (["Very low engagement rate (possible inactive account)"], p1.2 - 10)
    else ([], p1.2)
  let p3 : List String × Int :=
    if pd.bio.length < 10 then (["Very short bio"], p2.2 - 5) else ([], p2.2)
  let p4 : List String × Int :=
    if ["bot", "fake", "spam", "test account"].any
        (fun kw => containsSub kw.data (lowerList pd.bio.data)) then
      (["Suspicious keywords in bio"], p3.2 - 10)
    else ([], p3.2)
  { is_valid := errors.isEmpty, warnings := p1.1 ++ p2.1 ++ p3.1 ++ p4.1,
    errors := errors, quality_score := p4.2 }

/-- `HunterOrchestrator.validate_and_score_profile`. -/
def validateAndScore (pd : ProfileData) : Bool × List String :=
  let v := validateProfileData pd
  if !v.is_valid then (false, v.errors)
  else if v.quality_score < 70 then (true, v.warnings)
  else (true, [])

/-- Orchestrator-visible mutable state. -/
structure OrchState where
  seen_profiles : Finset String
  discovered_hvts : List UserProfile
  total_profiles_scanned : Nat
  valid_profiles_processed : Nat
  hvts_found : Nat
  fetches : Nat
deriving DecidableEq

/-- `HunterOrchestrator.process_single_profile`: the seen check comes
before the fetch; on the fetch path the scanned counter and seen set
are updated regardless of outcome, and the profile data is returned
only when validation passes. -/
def processSingleProfile (env : ScrapeEnv) (s : OrchState) (u : String) :
    OrchState × Option ProfileData :=
  if u ∈ s.seen_profiles then (s, none)
  else
    let pd? := env.fetchProfile u
    let s₁ := { s with
      fetches := s.fetches + 1,
      total_profiles_scanned := s.total_profiles_scanned + 1,
      seen_profiles := insert u s.seen_profiles }
    match pd? with
    | none => (s₁, none)
    | some pd =>
      if (validateAndScore pd).fst then
        ({ s₁ with valid_profiles_processed := s₁.valid_profiles_processed + 1 }, some pd)
      else (s₁, none)

/-- Abbreviated rendering of a reason tag; the exact reason text is
irrelevant to the claims. -/
def reasonString : Reason → String
  | .followerRange => "follower count outside range"
  | .postCountBelowMin => "post count below minimum"
  | .verifiedAccount => "verified account"
  | .privateProfile => "private profile"
  | .locationFailed _ => "location check failed"
  | .noActiveStory => "no active story found"
  | .noProfilePic => "no profile picture"
  | .commercialIntent => "commercial intent detected in bio"
  | .excludedKeyword k => "excluded keyword found: " ++ k
  | .engagementOutsideRange => "engagement rate outside normal range"
  | .allCriteriaMet => "all criteria met"
  | .missingIncludeKeyword => "does not contain required keywords"
  | .excludedKeywordUser k => "contains excluded keyword: " ++ k

/-- `HunterOrchestrator.create_hvt_profile`.  The source omits the
`last_post_date` and `account_age_estimate` dataclass arguments (a
latent TypeError at runtime); they are modelled by the neutral
values `none` and "". -/
def createHvtProfile (dl ds : String → String) (env : ScrapeEnv) (pd : ProfileData)
    (reason : String) (source : String) : UserProfile :=
  let ba := analyzeBio (concreteDetectors dl ds) pd.bio
  { username := pd.username, follower_count := pd.follower_count,
    following_count := pd.following_count, post_count := pd.post_count,
    bio := pd.bio, profile_url := pd.profile_url,
    has_active_story := pd.has_active_story, location := pd.location,
    is_verified := pd.is_verified, is_private := pd.is_private,
    profile_pic_url := pd.profile_pic_url, last_post_date := none,
    engagement_rate := pd.engagement_rate,
    estimated_gender := ba.estimated_gender, bio_language := ba.language,
    account_age_estimate := "", reason_for_selection := reason,
    source_hvt := source, discovery_timestamp := env.timestamp }

/-- The shared per-candidate step of both phases: process, qualify, and
on acceptance append to the session store and bump the counter. -/
def processAndQualify (env : ScrapeEnv) (dl ds : String → String) (cfg : FilterConfig)
    (uf : UserFilters) (source : String) (s : OrchState) (u : String) :
    OrchState × Option UserProfile :=
  match processSingleProfile env s u with
  | (s₁, none) => (s₁, none)
  | (s₁, some pd) =>
    match applyAllFilters dl ds cfg uf pd with
    | (true, r) =>
      let hvt := createHvtProfile dl ds env pd (reasonString r) source
      ({ s₁ with discovered_hvts := s₁.discovered_hvts ++ [hvt],
                 hvts_found := s₁.hvts_found + 1 }, some hvt)
    | (false, _) => (s₁, none)

/-- `HunterOrchestrator.find_initial_hvts`: iterates over all seed
usernames with no budget check. -/
def seedPhase (env : ScrapeEnv) (dl ds : String → String) (cfg : FilterConfig)
    (uf : UserFilters) : List String → OrchState → OrchState × List UserProfile
  | [], s => (s, [])
  | u :: rest, s =>
    match processAndQualify env dl ds cfg uf "initial_seed" s u with
    | (s₁, hv?) =>
      match seedPhase env dl ds cfg uf rest s₁ with
      | (s₂, hvs) =>
        (s₂, match hv? with | some h => h :: hvs | none => hvs)

/-- The inner follower loop of `recursive_follower_expansion`: the
budget is checked before each candidate. -/
def scanFollowers (env : ScrapeEnv) (dl ds : String → String) (cfg : FilterConfig)
    (uf : UserFilters) (source : String) :
    List String → OrchState → OrchState × List UserProfile
  | [], s => (s, [])
  | u :: rest, s =>
    if s.total_profiles_scanned ≥ uf.max_profiles then (s, [])
    else
      match processAndQualify env dl ds cfg uf source s u with
      | (s₁, hv?) =>
        match scanFollowers env dl ds cfg uf source rest s₁ with
        | (s₂, hvs) =>
          (s₂, match hv? with | some h => h :: hvs | none => hvs)

/-- One depth level: the budget is checked before each source profile's
follower fetch. -/
def depthLevel (env : ScrapeEnv) (dl ds : String → String) (cfg : FilterConfig)
    (uf : UserFilters) : List UserProfile → OrchState → OrchState × List UserProfile
  | [], s => (s, [])
  | src :: rest, s =>
    if s.total_profiles_scanned ≥ uf.max_profiles then (s, [])
    else
      match scanFollowers env dl ds cfg uf src.username (env.followers src.username) s with
      | (s₁, newHvts) =>
        match depthLevel env dl ds cfg uf rest s₁ with
        | (s₂, moreHvts) => (s₂, newHvts ++ moreHvts)

/-- `HunterOrchestrator.recursive_follower_expansion`: depth levels over
the queue of previously accepted profiles; an empty queue ends the
phase. -/
def expansionPhase (env : ScrapeEnv) (dl ds : String → String) (cfg : FilterConfig)
    (uf : UserFilters) : Nat → List UserProfile → OrchState → OrchState × List UserProfile
  | 0, _, s => (s, [])
  | _ + 1, [], s => (s, [])
  | d + 1, q :: qs, s =>
    match depthLevel env dl ds cfg uf (q :: qs) s with
    | (s₁, next) =>
      match expansionPhase env dl ds cfg uf d next s₁ with
      | (s₂, later) => (s₂, next ++ later)

theorem processSingleProfile_total_le (env : ScrapeEnv) (s : OrchState) (u : String) :
    (processSingleProfile env s u).fst.total_profiles_scanned ≤
      s.total_profiles_scanned + 1 := by
  unfold processSingleProfile
  split
  · exact Nat.le_succ _
  · rcases hf : env.fetchProfile u with _ | pd
    · exact Nat.le_refl _
    · cases hb : (validateAndScore pd).fst
      · simp only [hb]
        exact Nat.le_refl _
      · simp only [hb]
        exact Nat.le_refl _

theorem processAndQualify_total_le (env : ScrapeEnv) (dl ds : String → String)
    (cfg : FilterConfig) (uf : UserFilters) (source : String) (s : OrchState) (u : String) :
    (processAndQualify env dl ds cfg uf source s u).fst.total_profiles_scanned ≤
      s.total_profiles_scanned + 1 := by
  have h := processSingleProfile_total_le env s u
  unfold processAndQualify
  rcases hps : processSingleProfile env s u with ⟨s₁, pd?⟩
  rw [hps] at h
  cases pd? with
  | none => simpa using h
  | some pd =>
    rcases haf : applyAllFilters dl ds cfg uf pd with ⟨b, r⟩
    cases b
    · simp only [haf]
      simpa using h
    · simp only [haf]
      simpa using h

theorem scanFollowers_total_le (env : ScrapeEnv) (dl ds : String → String)
    (cfg : FilterConfig) (uf : UserFilters) (source : String) :
    ∀ (l : List String) (s : OrchState),
      s.total_profiles_scanned ≤ uf.max_profiles →
      (scanFollowers env dl ds cfg uf source l s).fst.total_profiles_scanned ≤
        uf.max_profiles
  | [], _, h => h
  | u :: rest, s, h => by
    show (if s.total_profiles_scanned ≥ uf.max_profiles then (s, ([] : List UserProfile))
          else
            match processAndQualify env dl ds cfg uf source s u with
            | (s₁, hv?) =>
              match scanFollowers env dl ds cfg uf source rest s₁ with
              | (s₂, hvs) =>
                (s₂, match hv? with | some h => h :: hvs | none => hvs)
         ).fst.total_profiles_scanned ≤ uf.max_profiles
    split
    · exact h
    · next hge =>
      rcases hpa : processAndQualify env dl ds cfg uf source s u with ⟨s₁, hv?⟩
      have h1 : s₁.total_profiles_scanned ≤ uf.max_profiles := by
        have hb := processAndQualify_total_le env dl ds cfg uf source s u
        rw [hpa] at hb
        simp at hb
        omega
      have h2 := scanFollowers_total_le env dl ds cfg uf source rest s₁ h1
      rcases hsf : scanFollowers env dl ds cfg uf source rest s₁ with ⟨s₂, hvs⟩
      rw [hsf] at h2
      simp only [hpa, hsf]
      exact h2

theorem depthLevel_total_le (env : ScrapeEnv) (dl ds : String → String)
    (cfg : FilterConfig) (uf : UserFilters) :
    ∀ (queue : List UserProfile) (s : OrchState),
      s.total_profiles_scanned ≤ uf.max_profiles →
      (depthLevel env dl ds cfg uf queue s).fst.total_profiles_scanned ≤ uf.max_profiles
  | [], _, h => h
  | src :: rest, s, h => by
    show (if s.total_profiles_scanned ≥ uf.max_profiles then (s, ([] : List UserProfile))
          else
            match scanFollowers env dl ds cfg uf src.username (env.followers src.username) s with
            | (s₁, newHvts) =>
              match depthLevel env dl ds cfg uf rest s₁ with
              | (s₂, moreHvts) => (s₂, newHvts ++ moreHvts)
         ).fst.total_profiles_scanned ≤ uf.max_profiles
    split
    · exact h
    · rcases hsf : scanFollowers env dl ds cfg uf src.username (env.followers src.username) s
        with ⟨s₁, newHvts⟩
      have h1 := scanFollowers_total_le env dl ds cfg uf src.username
        (env.followers src.username) s h
      rw [hsf] at h1
      have h2 := depthLevel_total_le env dl ds cfg uf rest s₁ h1
      rcases hdl : depthLevel env dl ds cfg uf rest s₁ with ⟨s₂, moreHvts⟩
      rw [hdl] at h2
      simp only [hsf, hdl]
      exact h2

theorem expansionPhase_total_le (env : ScrapeEnv) (dl ds : String → String)
    (cfg : FilterConfig) (uf : UserFilters) :
    ∀ (depth : Nat) (queue : List UserProfile) (s : OrchState),
      s.total_profiles_scanned ≤ uf.max_profiles →
      (expansionPhase env dl ds cfg uf depth queue s).fst.total_profiles_scanned ≤
        uf.max_profiles
  | 0, _, _, h => h
  | _ + 1, [], _, h => h
  | d + 1, q :: qs, s, h => by
    rcases hdl : depthLevel env dl ds cfg uf (q :: qs) s with ⟨s₁, next⟩
    have h1 := depthLevel_total_le env dl ds cfg uf (q :: qs) s h
    rw [hdl] at h1
    have h2 := expansionPhase_total_le env dl ds cfg uf d next s₁ h1
    rcases hex : expansionPhase env dl ds cfg uf d next s₁ with ⟨s₂, later⟩
    rw [hex] at h2
    show (match depthLevel env dl ds cfg uf (q :: qs) s with
          | (s₁, next) =>
            match expansionPhase env dl ds cfg uf d next s₁ with
            | (s₂, later) => (s₂, next ++ later)
         ).fst.total_profiles_scanned ≤ uf.max_profiles
    simp only [hdl, hex]
    exact h2

theorem expansionPhase_stops (env : ScrapeEnv) (dl ds : String → String)
    (cfg : FilterConfig) (uf : UserFilters) :
    ∀ (depth : Nat) (queue : List UserProfile) (s : OrchState),
      s.total_profiles_scanned ≥ uf.max_profiles →
      expansionPhase env dl ds cfg uf depth queue s = (s, [])
  | 0, _, _, _ => rfl
  | _ + 1, [], _, _ => rfl
  | d + 1, q :: qs, s, h => by
    have hdl : depthLevel env dl ds cfg uf (q :: qs) s = (s, []) := by
      show (if s.total_profiles_scanned ≥ uf.max_profiles then (s, ([] : List UserProfile))
            else _) = (s, [])
      rw [if_pos h]
    have hex : expansionPhase env dl ds cfg uf d [] s = (s, []) := by
      cases d <;> rfl
    show (match depthLevel env dl ds cfg uf (q :: qs) s with
          | (s₁, next) =>
            match expansionPhase env dl ds cfg uf d next s₁ with
            | (s₂, later) => (s₂, next ++ later)) = (s, [])
    simp only [hdl, hex, List.nil_append]

/-- C1 (amended): the follower-expansion phase checks the budget before
each fetch, so a state within budget stays within budget at phase
termination, and a state already at or over the budget performs no
work at all (no fetch, no state change); the seed phase, in
contrast, has no budget check — see the counterexample. -/
theorem C1_expansion_budget :
    ∀ (env : ScrapeEnv) (dl ds : String → String) (cfg : FilterConfig) (uf : UserFilters)
      (depth : Nat) (queue : List UserProfile) (s : OrchState),
      (s.total_profiles_scanned ≤ uf.max_profiles →
        (expansionPhase env dl ds cfg uf depth queue s).fst.total_profiles_scanned ≤
          uf.max_profiles) ∧
      (s.total_profiles_scanned ≥ uf.max_profiles →
        expansionPhase env dl ds cfg uf depth queue s = (s, [])) :=
  fun env dl ds cfg uf depth queue s =>
    ⟨expansionPhase_total_le env dl ds cfg uf depth queue s,
     expansionPhase_stops env dl ds cfg uf depth queue s⟩

/-- An environment where every profile fetch fails and every profile
has one follower. -/
def env0 : ScrapeEnv :=
  { fetchProfile := fun _ => none, followers := fun _ => ["f1"], timestamp := "t" }

/-- The orchestrator's initial state. -/
def orch0 : OrchState :=
  { seen_profiles := ∅, discovered_hvts := [], total_profiles_scanned := 0,
    valid_profiles_processed := 0, hvts_found := 0, fetches := 0 }

/-- Witness for C1 (amended) at concrete inputs: from counter 0 the
expansion phase stays within the budget of 1000, and at counter 1000
it does nothing. -/
theorem C1_expansion_budget_witness :
    (expansionPhase env0 dlEn dsNeutral cfgDefault ufBase 2 [sampleProfile]
        orch0).fst.total_profiles_scanned ≤ ufBase.max_profiles ∧
    expansionPhase env0 dlEn dsNeutral cfgDefault ufBase 2 [sampleProfile]
        { orch0 with total_profiles_scanned := 1000 } =
      ({ orch0 with total_profiles_scanned := 1000 }, []) :=
  ⟨(C1_expansion_budget env0 dlEn dsNeutral cfgDefault ufBase 2 [sampleProfile] orch0).1
      (by decide),
   (C1_expansion_budget env0 dlEn dsNeutral cfgDefault ufBase 2 [sampleProfile]
      { orch0 with total_profiles_scanned := 1000 }).2 (by decide)⟩

/-- User filters with a budget of one profile. -/
def ufOne : UserFilters := { ufBase with max_profiles := 1 }

/-- Counterexample to C1 as stated: the seed phase performs no budget
check, so with budget N = 1 and two unseen seed usernames the
total-profiles-scanned counter reaches 2 > 1 (each seed is fetched,
as the fetch ghost counter shows). -/
theorem C1_counterexample_seed_overshoot :
    (seedPhase env0 dlEn dsNeutral cfgDefault ufOne ["a", "b"] orch0).fst.total_profiles_scanned
        = 2 ∧
    (seedPhase env0 dlEn dsNeutral cfgDefault ufOne ["a", "b"] orch0).fst.fetches = 2 ∧
    ufOne.max_profiles = 1 ∧ ¬ (2 ≤ 1) :=
  ⟨by decide, by decide, by decide, by decide⟩

theorem processSingleProfile_seen_noop (env : ScrapeEnv) (s : OrchState) (u : String)
    (h : u ∈ s.seen_profiles) : processSingleProfile env s u = (s, none) := by
  unfold processSingleProfile
  rw [if_pos h]

theorem processAndQualify_seen_noop (env : ScrapeEnv) (dl ds : String → String)
    (cfg : FilterConfig) (uf : UserFilters) (source : String) (s : OrchState) (u : String)
    (h : u ∈ s.seen_profiles) :
    processAndQualify env dl ds cfg uf source s u = (s, none) := by
  unfold processAndQualify
  rw [processSingleProfile_seen_noop env s u h]

theorem processSingleProfile_mem_seen (env : ScrapeEnv) (s : OrchState) (u : String) :
    u ∈ (processSingleProfile env s u).fst.seen_profiles := by
  unfold processSingleProfile
  split
  · assumption
  · rcases hf : env.fetchProfile u with _ | pd
    · exact Finset.mem_insert_self u _
    · cases hb : (validateAndScore pd).fst
      · simp only [hb]
        exact Finset.mem_insert_self u _
      · simp only [hb]
        exact Finset.mem_insert_self u _

theorem processAndQualify_mem_seen (env : ScrapeEnv) (dl ds : String → String)
    (cfg : FilterConfig) (uf : UserFilters) (source : String) (s : OrchState) (u : String) :
    u ∈ (processAndQualify env dl ds cfg uf source s u).fst.seen_profiles := by
  have h := processSingleProfile_mem_seen env s u
  unfold processAndQualify
  rcases hps : processSingleProfile env s u with ⟨s₁, pd?⟩
  rw [hps] at h
  cases pd? with
  | none => simpa using h
  | some pd =>
    rcases haf : applyAllFilters dl ds cfg uf pd with ⟨b, r⟩
    cases b
    · simp only [haf]
      simpa using h
    · simp only [haf]
      simpa using h

/-- C2 (amended): processing a username already in the seen set is a
complete no-op — the check precedes any fetch, so the state (the
fetch ghost counter and the accepted store included) is unchanged
and nothing is returned; every processed username enters the seen
set, hence processing the same username a second time performs no
second fetch and adds no second accepted entry.  (The store-level
half of the original claim fails: `add_hvt` itself does not
deduplicate — see the counterexample.) -/
theorem C2_second_processing_noop :
    ∀ (env : ScrapeEnv) (dl ds : String → String) (cfg : FilterConfig) (uf : UserFilters)
      (source : String) (s : OrchState) (u : String),
      (u ∈ s.seen_profiles → processAndQualify env dl ds cfg uf source s u = (s, none)) ∧
      u ∈ (processAndQualify env dl ds cfg uf source s u).fst.seen_profiles ∧
      processAndQualify env dl ds cfg uf source
          (processAndQualify env dl ds cfg uf source s u).fst u =
        ((processAndQualify env dl ds cfg uf source s u).fst, none) :=
  fun env dl ds cfg uf source s u =>
    ⟨fun h => processAndQualify_seen_noop env dl ds cfg uf source s u h,
     processAndQualify_mem_seen env dl ds cfg uf source s u,
     processAndQualify_seen_noop env dl ds cfg uf source _ u
       (processAndQualify_mem_seen env dl ds cfg uf source s u)⟩

/-- A state that has already examined username "a". -/
def orchSeen : OrchState := { orch0 with seen_profiles := {"a"} }

/-- Witness for C2 (amended) at concrete inputs: re-processing the seen
username "a" changes nothing and returns nothing. -/
theorem C2_second_processing_noop_witness :
    processAndQualify env0 dlEn dsNeutral cfgDefault ufBase "initial_seed" orchSeen "a" =
      (orchSeen, none) :=
  (C2_second_processing_noop env0 dlEn dsNeutral cfgDefault ufBase "initial_seed"
    orchSeen "a").1 (by decide)
